import Mathlib

/-
Verification of the redux-quest data-fetching engine.

The embedding below translates src/src/quest.js (the `quest` higher-order
component), the legacy `withData` higher-order component, and the store-side
pieces the spec describes (the reducer's record shape and the startQuest /
resolveQuest actions, which live outside the provided sources and are
therefore modelled from the spec, as marked on each such definition).

JavaScript values are embedded as the inductive `JSValue`; property access,
`typeof` and truthiness follow the JavaScript semantics the source relies on.
-/

/-- Shallow embedding of the JavaScript values the library manipulates. -/
inductive JSValue where
  | undefined : JSValue
  | jsNull : JSValue
  | jsBool : Bool → JSValue
  | num : Int → JSValue
  | str : String → JSValue
  | func : Nat → JSValue
  | obj : List (String × JSValue) → JSValue

/-- JavaScript `typeof` operator (note `typeof null === "object"`). -/
def typeofJS : JSValue → String
  | .undefined => "undefined"
  | .jsNull => "object"
  | .jsBool _ => "boolean"
  | .num _ => "number"
  | .str _ => "string"
  | .func _ => "function"
  | .obj _ => "object"

/-- JavaScript truthiness. -/
def truthy : JSValue → Bool
  | .undefined => false
  | .jsNull => false
  | .jsBool b => b
  | .num n => n != 0
  | .str s => s != ""
  | .func _ => true
  | .obj _ => true

/-- First-match association lookup, the semantics of reading a field off a
JavaScript object literal. -/
def lookupField : List (String × JSValue) → String → Option JSValue
  | [], _ => none
  | (k, v) :: rest, name => if k == name then some v else lookupField rest name

/-- Association update, the semantics of `obj[k] = v` / spread-override. -/
def setField : List (String × JSValue) → String → JSValue → List (String × JSValue)
  | [], key, v => [(key, v)]
  | (k, w) :: rest, key, v =>
      if k == key then (k, v) :: rest else (k, w) :: setField rest key v

/-- Total property read: a missing field on an object yields `undefined`; the
bases that never occur as receivers in the modelled code also yield
`undefined`. -/
def getF (v : JSValue) (name : String) : JSValue :=
  match v with
  | .obj fs => (lookupField fs name).getD .undefined
  | _ => .undefined

/-- Property read that can throw: reading a property of `null` or `undefined`
raises a TypeError, as in JavaScript. -/
def memberAccess (v : JSValue) (name : String) : Except String JSValue :=
  match v with
  | .undefined => .error "TypeError: cannot read properties of undefined"
  | .jsNull => .error "TypeError: cannot read properties of null"
  | .obj fs => .ok ((lookupField fs name).getD .undefined)
  | _ => .ok .undefined

/-- JavaScript `Object.keys`. -/
def objKeys : JSValue → List String
  | .obj fs => fs.map Prod.fst
  | _ => []

/-- Whether the value is an actual object (so unlike `typeof`, `null` is
excluded). -/
def isObjectValue : JSValue → Bool
  | .obj _ => true
  | _ => false

/-- Resource Record constructor. Modelled from the spec: the reducer is not
among the provided sources; per the spec a record holds exactly the four
fields `loading`, `completed`, `error`, `data`. In particular such a record
has no `ready` field, so the source's read of `record.ready` yields
`undefined`. -/
def mkRecord (loading completed : Bool) (error dat : JSValue) : JSValue :=
  .obj [("loading", .jsBool loading), ("completed", .jsBool completed),
        ("error", error), ("data", dat)]

/-- Modelled from the spec: `defaultState` exported by the reducer (not in
src) is the canonical default record. -/
def defaultState : JSValue := mkRecord false false .jsNull .jsNull

/-- Process state shared by all quest components: the store's keyed record
map, the module-level in-flight promise registration map of quest.js
(represented by the set of registered keys), and a counter of how many times
an underlying resolver fetcher has been invoked. -/
structure SysState where
  store : List (String × JSValue)
  promises : List String
  fetchCount : Nat

/-- quest.js lines 41-44: the first store connection maps
`state._data_[key] || defaultState` to the key prop. -/
def connect1MapState (store : List (String × JSValue)) (key : String) : JSValue :=
  match lookupField store key with
  | some v => if truthy v then v else defaultState
  | none => defaultState

/-- quest.js lines 130-132: the second store connection evaluates
`state._data_[key] || initialState`. The identifier `initialState` is not
imported or defined anywhere in quest.js, so whenever the left operand is
falsy (in particular for an absent key) evaluating it throws a
ReferenceError. -/
def connect2MapState (store : List (String × JSValue)) (key : String) :
    Except String JSValue :=
  match lookupField store key with
  | some v =>
      if truthy v then .ok v
      else .error "ReferenceError: initialState is not defined"
  | none => .error "ReferenceError: initialState is not defined"

/-- quest.js lines 33-37: the configuration-time invariant checks run by
`quest(options)` before anything else, including the member accesses their
arguments perform. -/
def questCheck (resolver : JSValue) : Except String Unit :=
  if typeofJS resolver = "object" then
    match memberAccess resolver "key" with
    | .error e => .error e
    | .ok k =>
        if typeofJS k = "string" then
          match memberAccess resolver "get" with
          | .error e => .error e
          | .ok g =>
              if typeofJS g = "function" then .ok ()
              else .error "resolvers must contain a get() method"
        else .error "resolvers must contain a valid key"
  else .error "quests must be passed a resolver"

/-- The `query` option of a quest: `null` by default, or a plain value, or a
prop-mapping function. -/
inductive QueryOpt where
  | qNull
  | qVal (v : JSValue)
  | qFn (f : JSValue → JSValue)

/-- The `fetchOnce` option: absent, a boolean, or a predicate over props. -/
inductive FetchOnceOpt where
  | unset
  | fBool (b : Bool)
  | fPred (f : JSValue → Bool)

/-- JavaScript truthiness of the `fetchOnce` option value. -/
def fetchOnceTruthy : FetchOnceOpt → Bool
  | .unset => false
  | .fBool b => b
  | .fPred _ => true

/-- The quest configuration the lifecycle code closes over: the resolver's
key and the options of quest.js lines 17-30 that the modelled code paths
read (defaults as in the source). -/
structure QuestOptions where
  key : String
  query : QueryOpt := .qNull
  fetchOnServer : Bool := true
  fetchOnce : FetchOnceOpt := .unset
  refetchWhen : JSValue → JSValue → Bool := fun _ _ => false

/-- Actions dispatched by `updateData` (quest.js lines 46-58): a
`startQuest` whose fetcher is `resolver.get` bound to the computed options,
a `startQuest` with a caller-supplied fetcher function, or a direct
`resolveQuest`. -/
inductive Dispatch where
  | startGet (key : String) (options : JSValue)
  | startFn (key : String) (f : JSValue)
  | resolve (key : String) (v : JSValue)

/-- quest.js lines 47-51: the options object `{ query: ... }` built by
`updateData`, evaluating a function-valued `query` at `nextProps || props`. -/
def computedOptions (o : QuestOptions) (props : JSValue)
    (nextProps : Option JSValue) : JSValue :=
  .obj [("query",
    match o.query with
    | .qNull => .jsNull
    | .qVal v => v
    | .qFn f => f (nextProps.getD props))]

/-- Test for `next === undefined`. -/
def isUndefined : JSValue → Bool
  | .undefined => true
  | _ => false

/-- quest.js lines 46-58: `updateData(next, nextProps)` selects which action
to dispatch from the shape of `next`. -/
def updateData (o : QuestOptions) (props : JSValue) (next : JSValue)
    (nextProps : Option JSValue) : Dispatch :=
  if isUndefined next then .startGet o.key (computedOptions o props nextProps)
  else if typeofJS next = "function" then .startFn o.key next
  else .resolve o.key next

/-- Record transition at quest start. Modelled from the spec: `startQuest`
(actions.js is not in src) sets `loading = true` and leaves `completed`,
`error` and `data` untouched until settlement. -/
def questStartRecord (r : JSValue) : JSValue :=
  .obj [("loading", .jsBool true), ("completed", getF r "completed"),
        ("error", getF r "error"), ("data", getF r "data")]

/-- Modelled from the spec: dispatching `startQuest(key, fetcher)` commits
the loading transition for the key's record (created from the canonical
default if absent) and invokes the fetcher once, which the embedding counts
in `fetchCount`. -/
def startQuestAction (key : String) (st : SysState) : SysState :=
  { st with
      store := setField st.store key (questStartRecord (connect1MapState st.store key)),
      fetchCount := st.fetchCount + 1 }

/-- Modelled from the spec: `resolveQuest(key, value)` directly commits
`value` without invoking any fetcher, setting `data = value`,
`completed = true`, `loading = false`, `error = null`. -/
def resolveQuestAction (key : String) (v : JSValue) (st : SysState) : SysState :=
  { st with store := setField st.store key (mkRecord false true .jsNull v) }

/-- Effect of a dispatched action on the process state. -/
def applyDispatch (d : Dispatch) (st : SysState) : SysState :=
  match d with
  | .startGet key _ => startQuestAction key st
  | .startFn key _ => startQuestAction key st
  | .resolve key v => resolveQuestAction key v st

/-- Record transition at fetch settlement. Modelled from the spec: success
sets `data = result`, `completed = true`, `loading = false`, `error = null`;
failure sets `error = reason`, `loading = false`, leaving `data` and
`completed` unchanged. -/
def questSettleRecord (r : JSValue) : Except JSValue JSValue → JSValue
  | .ok v => mkRecord false true .jsNull v
  | .error e =>
      .obj [("loading", .jsBool false), ("completed", getF r "completed"),
            ("error", e), ("data", getF r "data")]

/-- Modelled from the spec: the promise returned by
`dispatch(startQuest(...))` fulfils on both fetch success and fetch failure,
because all data-fetch failures are captured into the Resource Record and
never re-thrown to the caller. -/
def startQuestPromiseFulfils (_ : Except JSValue JSValue) : Bool := true

/-- Settlement of the in-flight fetch for a key: the store commit is the
spec-modelled `startQuest` settlement transition, and the registration
cleanup is quest.js lines 94-96: the handler
`promises[key] = r.then(() => { delete promises[key] })` is attached to the
fulfilment path of the promise returned by the dispatch, which (see
`startQuestPromiseFulfils`) fulfils for either fetch outcome, so the
handler runs and removes the entry. -/
def settleQuest (key : String) (outcome : Except JSValue JSValue)
    (st : SysState) : SysState :=
  let st1 := { st with
    store := setField st.store key
      (questSettleRecord (connect1MapState st.store key) outcome) }
  if startQuestPromiseFulfils outcome then
    { st1 with promises := st1.promises.filter (fun k => k != key) }
  else st1

/-- The props a quest component sees: the key prop supplied by the first
store connection, ahead of whatever own props the component instance has. -/
def hocProps (o : QuestOptions) (st : SysState)
    (own : List (String × JSValue)) : JSValue :=
  .obj ((o.key, connect1MapState st.store o.key) :: own)

/-- quest.js lines 65-88: the `canFetchOnce` decision. Returns `false` when
the instance already fetched or the key prop's `ready` field is truthy;
otherwise `true` when `fetchOnce` is falsy or the key prop's `error` field
is truthy; otherwise the boolean coercion of a non-function `fetchOnce`, or
the predicate applied to `nextProps || props` (the source's trailing
implicit `undefined` is falsy). -/
def canFetchOnce (o : QuestOptions) (fetched : Bool) (props : JSValue)
    (nextProps : Option JSValue) : Bool :=
  if fetched || truthy (getF (getF props o.key) "ready") then false
  else if !(fetchOnceTruthy o.fetchOnce) || truthy (getF (getF props o.key) "error") then true
  else
    match o.fetchOnce with
    | .fPred f => f (nextProps.getD props)
    | fo => fetchOnceTruthy fo

/-- What `componentWillMount` returns: the result of dispatching an update
(after registering the returned promise), the already-registered in-flight
promise for the key, or nothing. -/
inductive MountResult where
  | dispatched
  | ssrPromise
  | nothing
deriving DecidableEq

/-- quest.js lines 62-105: `componentWillMount`. Sets `this.fetched = false`;
if `fetchOnServer && canFetchOnce()` it dispatches `updateData()` (whose
dispatch returns a promise, so the guard `r && r.then` holds) and registers
`promises[key]`; otherwise, if the key prop's `loading` field is truthy and
a promise is registered for the key, it returns that promise for a
server-side renderer. -/
def willMount (o : QuestOptions) (own : List (String × JSValue))
    (st : SysState) : MountResult × SysState :=
  let props := hocProps o st own
  if o.fetchOnServer && canFetchOnce o false props none then
    let st1 := applyDispatch (updateData o props .undefined none) st
    let st2 := { st1 with
      promises := if o.key ∈ st1.promises then st1.promises else o.key :: st1.promises }
    (.dispatched, st2)
  else if truthy (getF (getF props o.key) "loading") = true ∧ o.key ∈ st.promises then
    (.ssrPromise, st)
  else
    (.nothing, st)

/-- quest.js lines 107-112: `componentDidMount` dispatches the deferred
initial fetch when `fetchOnServer` is false and `canFetchOnce()` permits it,
recording `this.fetched = true`. Returns the new `fetched` flag, the
dispatched action if any, and the new process state. -/
def didMount (o : QuestOptions) (own : List (String × JSValue))
    (fetched : Bool) (st : SysState) : Bool × Option Dispatch × SysState :=
  let props := hocProps o st own
  if !o.fetchOnServer && canFetchOnce o fetched props none then
    let d := updateData o props .undefined none
    (true, some d, applyDispatch d st)
  else (fetched, none, st)

/-- quest.js lines 114-121: `componentWillReceiveProps` dispatches
`updateData(undefined, nextProps)` exactly when `canFetchOnce(nextProps)` or
`refetchWhen(props, nextProps)` holds, recording `this.fetched = true`. -/
def willReceiveProps (o : QuestOptions) (own : List (String × JSValue))
    (fetched : Bool) (nextProps : JSValue) (st : SysState) :
    Bool × Option Dispatch × SysState :=
  let props := hocProps o st own
  if canFetchOnce o fetched props (some nextProps) || o.refetchWhen props nextProps then
    let d := updateData o props .undefined (some nextProps)
    (true, some d, applyDispatch d st)
  else (fetched, none, st)

/-- quest.js line 135: the method names selected by
`Object.keys(resolver).filter(key => typeof key === 'function')`. The filter
tests `typeof` of each key itself, which is a string, exactly as the source
does. -/
def programmaticMethodNames (resolver : JSValue) : List String :=
  (objKeys resolver).filter (fun k => typeofJS (.str k) == "function")

/-- Sets a field on a value that is expected to be an object (spread into a
fresh object otherwise). -/
def objSetField (v : JSValue) (name : String) (w : JSValue) : JSValue :=
  match v with
  | .obj fs => .obj (setField fs name w)
  | _ => .obj [(name, w)]

/-- quest.js lines 134-150: the props object built by the
programmatic-methods `withProps`, folding each selected method name into a
method entry on the key prop (the method closure itself is opaque here,
which is immaterial because the selected name list is always empty). -/
def programmaticMethodProps (resolver props : JSValue) (key : String) : JSValue :=
  .obj ((programmaticMethodNames resolver).foldl
    (fun acc method =>
      setField acc key (objSetField (getF props key) method (.func 0)))
    [])

/-- part_000 lines 83-85 (legacy withData): `capitalize` evaluates
`string[0].toUpperCase() + string.slice(1)`; on the empty string,
`string[0]` is `undefined` and the `toUpperCase` call throws. -/
def capitalize (s : String) : Except String String :=
  if s = "" then .error "TypeError: cannot read toUpperCase of undefined"
  else .ok (String.singleton s.front.toUpper ++ s.drop 1)

/-- part_000 line 65: the generated programmatic prop name, the method name
followed by the capitalized resolver key. -/
def withDataPropName (method key : String) : Except String String :=
  match capitalize key with
  | .ok ck => .ok (method ++ ck)
  | .error e => .error e

/-- part_000 lines 60-72: the prop names generated for every key of the
resolver object by the legacy withData programmatic-methods block. -/
def withDataMethodPropNames (resolver : JSValue) (key : String) :
    Except String (List String) :=
  (objKeys resolver).mapM (fun method => withDataPropName method key)

/-- Quest options as the source defaults them, for the `posts` resolver. -/
def defaultOptions : QuestOptions := { key := "posts" }

/-- Process state before any quest has run. -/
def emptySys : SysState := ⟨[], [], 0⟩

/-- Process state in which a fetch for `posts` is in flight: the record is
loading and the module-level registration for the key exists. -/
def loadingSys : SysState :=
  ⟨[("posts", mkRecord true false .jsNull .jsNull)], ["posts"], 1⟩

theorem getF_mkRecord_ready (l c : Bool) (e d : JSValue) :
    getF (mkRecord l c e d) "ready" = .undefined := rfl

theorem getF_mkRecord_error (l c : Bool) (e d : JSValue) :
    getF (mkRecord l c e d) "error" = e := rfl

theorem getF_mkRecord_loading (l c : Bool) (e d : JSValue) :
    getF (mkRecord l c e d) "loading" = .jsBool l := rfl

theorem lookupField_setField_self (store : List (String × JSValue))
    (key : String) (v : JSValue) :
    lookupField (setField store key v) key = some v := by
  induction store with
  | nil => simp [setField, lookupField]
  | cons hd tl ih =>
      obtain ⟨k, w⟩ := hd
      by_cases h : k == key
      · simp [setField, lookupField, h]
      · simp only [setField, lookupField, h]
        simpa [lookupField, h] using ih

/-- Helper: the string typeof of an object key is never the string
"function". -/
theorem typeof_str_beq_function (k : String) :
    (typeofJS (.str k) == "function") = false := rfl

/-- C1: the claim says that starting a quest twice for a key before the
first fetch settles invokes the fetcher exactly once, the mount step
treating an existing in-flight registration as already in flight. In the
code, `componentWillMount` never consults the `promises` registration (and
`canFetchOnce` only checks the nonexistent `ready` field), so a second
mount before settlement dispatches a second `startQuest`: starting from an
empty store, two mounts with default options drive the fetcher invocation
count to 2, with the first mount's registration still present. -/
theorem quest_c1_double_start_invokes_fetcher_twice :
    ((willMount defaultOptions [] emptySys).2.fetchCount = 1 ∧
      "posts" ∈ (willMount defaultOptions [] emptySys).2.promises) ∧
    (willMount defaultOptions []
      (willMount defaultOptions [] emptySys).2).2.fetchCount = 2 := by
  decide

/-- C2: for every key with a registered in-flight promise, settlement of the
fetch (success or failure) removes the key's entry from the deduplication
registration, leaving exactly the other keys. -/
theorem quest_c2_settlement_removes_registration (key : String)
    (outcome : Except JSValue JSValue) (st : SysState)
    (_h : key ∈ st.promises) :
    (settleQuest key outcome st).promises =
      st.promises.filter (fun k => k != key) ∧
    key ∉ (settleQuest key outcome st).promises := by
  refine ⟨rfl, ?_⟩
  simp [settleQuest, startQuestPromiseFulfils, List.mem_filter]

/-- Witness for C2 at a concrete rejected fetch for the registered key
`posts`. -/
theorem quest_c2_witness :
    "posts" ∈ loadingSys.promises ∧
    "posts" ∉ (settleQuest "posts" (.error (.str "network down"))
      loadingSys).promises :=
  ⟨by decide,
    (quest_c2_settlement_removes_registration "posts"
      (.error (.str "network down")) loadingSys (by decide)).2⟩

/-- C3: for a never-initialized key, the first store connection substitutes
the canonical default record, but the second store connection evaluates the
undefined identifier `initialState` and throws a ReferenceError instead of
yielding the default. -/
theorem quest_c3_second_connect_throws_on_absent_key :
    connect1MapState [] "posts" = defaultState ∧
    connect2MapState [] "posts" =
      .error "ReferenceError: initialState is not defined" :=
  ⟨rfl, rfl⟩

/-- C5: the claim says every function-valued resolver capability is exposed
as a method on the key prop. The source filters `Object.keys(resolver)` with
`typeof key === 'function'`, testing the key strings themselves, so the
selected method list is empty for every resolver and the generated props
object is empty. -/
theorem quest_c5_no_methods_exposed (resolver props : JSValue) (key : String) :
    programmaticMethodNames resolver = [] ∧
    programmaticMethodProps resolver props key = .obj [] := by
  have h : programmaticMethodNames resolver = [] := by
    unfold programmaticMethodNames
    induction objKeys resolver with
    | nil => rfl
    | cons a t ih => simp [List.filter_cons, typeof_str_beq_function, ih]
  exact ⟨h, by simp [programmaticMethodProps, h]⟩

/-- C4: `quest(options)` configuration fails (with an invariant error, or a
TypeError for a `null` resolver) exactly when the resolver is not an actual
object carrying a string `key` field and a function `get` field; a
conforming resolver raises no configuration error. -/
theorem quest_c4_config_check (r : JSValue) :
    questCheck r = .ok () ↔
      (isObjectValue r = true ∧ typeofJS (getF r "key") = "string" ∧
        typeofJS (getF r "get") = "function") := by
  cases r with
  | obj fs =>
      have hL : questCheck (.obj fs) =
          (if typeofJS ((lookupField fs "key").getD .undefined) = "string" then
            if typeofJS ((lookupField fs "get").getD .undefined) = "function" then
              (.ok () : Except String Unit)
            else .error "resolvers must contain a get() method"
          else .error "resolvers must contain a valid key") := rfl
      rw [hL]
      by_cases h1 : typeofJS ((lookupField fs "key").getD .undefined) = "string" <;>
        by_cases h2 : typeofJS ((lookupField fs "get").getD .undefined) = "function" <;>
        simp [h1, h2, isObjectValue, getF]
  | undefined => simp [questCheck, typeofJS, isObjectValue]
  | jsNull => simp [questCheck, memberAccess, typeofJS, isObjectValue]
  | jsBool b => simp [questCheck, typeofJS, isObjectValue]
  | num n => simp [questCheck, typeofJS, isObjectValue]
  | str s => simp [questCheck, typeofJS, isObjectValue]
  | func f => simp [questCheck, typeofJS, isObjectValue]

/-- C6: `updateData(next, nextProps)` dispatches a direct
`resolveQuest(key, next)` exactly when `next` is neither `undefined` nor a
function; an `undefined` `next` dispatches `startQuest` with `resolver.get`
bound to the computed query options, a function-valued `next` dispatches
`startQuest` with that function, and applying the direct resolve commits the
value as the record's data without invoking any fetcher. -/
theorem quest_c6_updateData_dispatch (o : QuestOptions) (props next : JSValue)
    (np : Option JSValue) :
    (isUndefined next = false → typeofJS next ≠ "function" →
        updateData o props next np = .resolve o.key next) ∧
    (isUndefined next = true →
        updateData o props next np = .startGet o.key (computedOptions o props np)) ∧
    (typeofJS next = "function" →
        updateData o props next np = .startFn o.key next) ∧
    (∀ (st : SysState) (v : JSValue),
        (applyDispatch (.resolve o.key v) st).fetchCount = st.fetchCount ∧
        lookupField (applyDispatch (.resolve o.key v) st).store o.key =
          some (mkRecord false true .jsNull v)) := by
  refine ⟨?_, ?_, ?_, ?_⟩
  · intro h1 h2
    simp [updateData, h1, h2]
  · intro h1
    simp [updateData, h1]
  · intro h3
    have h1 : isUndefined next = false := by
      cases next <;> first | rfl | exact absurd h3 (by decide)
    simp [updateData, h1, h3]
  · intro st v
    exact ⟨rfl, lookupField_setField_self _ _ _⟩

/-- Witness for C6 at a concrete plain value: updating with a string
dispatches the direct resolve. -/
theorem quest_c6_witness :
    updateData defaultOptions (.obj []) (.str "five") none =
      .resolve "posts" (.str "five") :=
  (quest_c6_updateData_dispatch defaultOptions (.obj []) (.str "five") none).1
    rfl (by decide)

/-- C7 counterexample: with the source's default options, a mount performed
while the key's record is loading and an in-flight promise is registered
does not return the registered promise; it dispatches a new fetch (the
fetcher invocation count rises), contradicting the claim as stated. -/
theorem quest_c7_counterexample :
    (willMount defaultOptions [] loadingSys).1 = .dispatched ∧
    (willMount defaultOptions [] loadingSys).2.fetchCount = 2 := by
  decide

/-- C7 (amended): provided the mount step's eager-fetch guard
`fetchOnServer && canFetchOnce()` does not fire, if the key's record has a
truthy `loading` and an in-flight promise is registered for the key, the
mount step returns that registered promise for the synchronous server
renderer, leaving the process state (in particular the fetcher invocation
count) unchanged. -/
theorem quest_c7_ssr_returns_registered_promise (o : QuestOptions)
    (own : List (String × JSValue)) (st : SysState)
    (hguard : (o.fetchOnServer && canFetchOnce o false (hocProps o st own) none) = false)
    (hload : truthy (getF (getF (hocProps o st own) o.key) "loading") = true)
    (hreg : o.key ∈ st.promises) :
    willMount o own st = (.ssrPromise, st) := by
  simp [willMount, hguard, hload, hreg]

/-- Witness for C7 (amended): with `fetchOnServer: false` and a loading,
registered key, the mount returns the registered promise. -/
theorem quest_c7_witness :
    willMount { key := "posts", fetchOnServer := false } [] loadingSys =
      (.ssrPromise, loadingSys) :=
  quest_c7_ssr_returns_registered_promise
    { key := "posts", fetchOnServer := false } [] loadingSys
    (by decide) (by decide) (by decide)

/-- C8: when `fetchOnServer` is false, the pre-mount step dispatches no
fetch and leaves the process state untouched; the deferred initial fetch is
dispatched by `componentDidMount` exactly when `canFetchOnce` permits it;
and on every prop change a fetch is dispatched exactly when `canFetchOnce`
allows it or the caller-supplied `refetchWhen` predicate returns true. -/
theorem quest_c8_deferred_fetch (o : QuestOptions)
    (own : List (String × JSValue)) (st : SysState)
    (h : o.fetchOnServer = false) :
    ((willMount o own st).2 = st ∧ (willMount o own st).1 ≠ .dispatched) ∧
    ((didMount o own false st).2.1.isSome =
      canFetchOnce o false (hocProps o st own) none) ∧
    (∀ (fetched : Bool) (np : JSValue),
      (willReceiveProps o own fetched np st).2.1.isSome =
        (canFetchOnce o fetched (hocProps o st own) (some np) ||
          o.refetchWhen (hocProps o st own) np)) := by
  refine ⟨?_, ?_, ?_⟩
  · refine ⟨?_, ?_⟩ <;>
      simp only [willMount, h, Bool.false_and, Bool.false_eq_true, if_false] <;>
      split <;> simp
  · simp only [didMount, h, Bool.not_false, Bool.true_and]
    cases hc : canFetchOnce o false (hocProps o st own) none <;> simp [hc]
  · intro fetched np
    simp only [willReceiveProps]
    cases hc : (canFetchOnce o fetched (hocProps o st own) (some np) ||
        o.refetchWhen (hocProps o st own) np) <;> simp [hc]

/-- Witness for C8: with `fetchOnServer: false` the pre-mount step does not
dispatch. -/
theorem quest_c8_witness :
    ({ key := "posts", fetchOnServer := false } : QuestOptions).fetchOnServer = false ∧
    (willMount { key := "posts", fetchOnServer := false } [] emptySys).1 ≠ .dispatched :=
  ⟨rfl, (quest_c8_deferred_fetch { key := "posts", fetchOnServer := false }
    [] emptySys rfl).1.2⟩

/-- Quest options whose `fetchOnce` predicate always defers fetching, used
to witness that a stored error bypasses the deferral. -/
def fetchOnceDeferOptions : QuestOptions :=
  { key := "posts", fetchOnce := .fPred (fun _ => false) }

/-- C9: for every key whose stored record carries a truthy error, a quest
component that has not yet fetched decides to fetch regardless of the
`fetchOnce` option (the error check precedes and bypasses it): a prop change
dispatches a refetch, a server-enabled mount dispatches eagerly, and a
deferred mount dispatches from `componentDidMount`. -/
theorem quest_c9_error_bypasses_fetchOnce (o : QuestOptions) (l c : Bool)
    (e d : JSValue) (own : List (String × JSValue)) (ps : List String)
    (n : Nat) (np : JSValue) (he : truthy e = true) :
    (∀ onp : Option JSValue,
      canFetchOnce o false
        (hocProps o ⟨[(o.key, mkRecord l c e d)], ps, n⟩ own) onp = true) ∧
    (willReceiveProps o own false np
      ⟨[(o.key, mkRecord l c e d)], ps, n⟩).2.1.isSome = true ∧
    (o.fetchOnServer = true →
      (willMount o own ⟨[(o.key, mkRecord l c e d)], ps, n⟩).1 = .dispatched) ∧
    (o.fetchOnServer = false →
      (didMount o own false ⟨[(o.key, mkRecord l c e d)], ps, n⟩).2.1.isSome = true) := by
  have hprops :
      getF (hocProps o ⟨[(o.key, mkRecord l c e d)], ps, n⟩ own) o.key =
        mkRecord l c e d := by
    simp [hocProps, getF, lookupField, connect1MapState, truthy, mkRecord]
  have hcan : ∀ onp : Option JSValue,
      canFetchOnce o false
        (hocProps o ⟨[(o.key, mkRecord l c e d)], ps, n⟩ own) onp = true := by
    intro onp
    unfold canFetchOnce
    rw [hprops, getF_mkRecord_ready, getF_mkRecord_error]
    have h0 : truthy JSValue.undefined = false := rfl
    rw [h0, he]
    simp
  refine ⟨hcan, ?_, ?_, ?_⟩
  · simp [willReceiveProps, hcan (some np)]
  · intro hfs
    simp [willMount, hfs, hcan none]
  · intro hfs
    simp [didMount, hfs, hcan none]

/-- Witness for C9: an errored record makes a mount with an
always-deferring `fetchOnce` predicate dispatch anyway. -/
theorem quest_c9_witness :
    truthy (.str "boom") = true ∧
    (willMount fetchOnceDeferOptions []
      ⟨[("posts", mkRecord false false (.str "boom") .jsNull)], [], 1⟩).1 =
      .dispatched :=
  ⟨by decide,
    (quest_c9_error_bypasses_fetchOnce fetchOnceDeferOptions false false
      (.str "boom") .jsNull [] [] 1 (.obj []) (by decide)).2.2.1 rfl⟩

/-- C10: in the legacy withData higher-order component, for every non-empty
resolver key the generated programmatic prop name is the method name
followed by the key with its first character upper-cased; for the
empty-string key `capitalize` throws, so a non-empty key is a precondition
for the prop construction to be safe. -/
theorem withData_c10_capitalize_propNames (method key : String)
    (h : key ≠ "") :
    withDataPropName method key =
      .ok (method ++ (String.singleton key.front.toUpper ++ key.drop 1)) ∧
    capitalize "" = .error "TypeError: cannot read toUpperCase of undefined" := by
  refine ⟨?_, rfl⟩
  simp [withDataPropName, capitalize, h]

/-- Witness for C10: the `create` capability of a `posts` resolver is named
`createPosts`, and the full name list of a concrete resolver builds without
throwing. -/
theorem withData_c10_witness :
    withDataPropName "create" "posts" = .ok "createPosts" ∧
    withDataMethodPropNames
      (.obj [("key", .str "posts"), ("get", .func 1), ("create", .func 2)])
      "posts" = .ok ["keyPosts", "getPosts", "createPosts"] := by
  refine ⟨?_, rfl⟩
  exact (withData_c10_capitalize_propNames "create" "posts" (by decide)).1
